import Mathlib

/-!
Verification of the core logic of the GitHub issue summary script
(`test-github-issue-summary.py`): label-based categorization of issues
into four status buckets, snapshot delta computation, delta formatting,
and the sequential run pipeline of `main`.
-/

set_option maxHeartbeats 1000000

namespace IssueSummary

/-! ### Data model and operations, embedded from the source -/

/-- Substring search on character lists: `strStarts hay needle` means
`needle` is a prefix of `hay` (the anchored step of Python `in`). -/
def strStarts : List Char → List Char → Bool
  | _, [] => true
  | [], _ :: _ => false
  | c :: cs, d :: ds => c == d && strStarts cs ds

/-- `strHasSub needle hay = true` iff `needle` occurs as a contiguous
substring of `hay` (embeds Python `needle in hay` on strings). -/
def strHasSub (needle : List Char) : List Char → Bool
  | [] => strStarts [] needle
  | c :: t => strStarts (c :: t) needle || strHasSub needle t

/-- Python `needle in hay` for strings. -/
def strContains (hay needle : String) : Bool :=
  strHasSub needle.toList hay.toList

/-- A raw GitHub issue as consumed by `categorize_issues`: its number,
title, html url and the list of label names. -/
structure RawIssue where
  number : Nat
  title : String
  url : String
  labels : List String
deriving DecidableEq, Repr

/-- The per-issue record of number, title and url built inside
`categorize_issues` and stored in the snapshot buckets. -/
structure CatIssue where
  number : Nat
  title : String
  url : String
deriving DecidableEq, Repr

/-- Python `str.lower()` (ASCII case folding), applied characterwise. -/
def pyLower (s : String) : String :=
  ⟨s.data.map Char.toLower⟩

/-- `label_names`: the lowercased label names of one issue. -/
def labelNames (i : RawIssue) : List String :=
  i.labels.map pyLower

/-- `has_blocked`: some label contains "blocked" and does not contain
"unblocked". -/
def hasBlocked (ls : List String) : Bool :=
  ls.any fun l => strContains l "blocked" && !(strContains l "unblocked")

/-- `has_ready`: some label contains both "ready" and "test". -/
def hasReady (ls : List String) : Bool :=
  ls.any fun l => strContains l "ready" && strContains l "test"

/-- `has_in_progress`: some label contains "in-progress", "in progress"
or "status:in-progress". -/
def hasInProgress (ls : List String) : Bool :=
  ls.any fun l =>
    strContains l "in-progress" || strContains l "in progress" ||
      strContains l "status:in-progress"

/-- The record kept per issue in the snapshot. -/
def toCat (i : RawIssue) : CatIssue :=
  ⟨i.number, i.title, i.url⟩

/-- The four status buckets, in the priority order of the source
(blocked, then ready-for-testing, then in-progress, then backlog). -/
inductive Category where
  | readyForTesting
  | inProgress
  | blocked
  | backlog
deriving DecidableEq, Repr

/-- The bucket that the `if has_blocked / elif has_ready /
elif has_in_progress / else` chain of `categorize_issues` assigns to one
issue. -/
def categoryOf (i : RawIssue) : Category :=
  let ls := labelNames i
  if hasBlocked ls then Category.blocked
  else if hasReady ls then Category.readyForTesting
  else if hasInProgress ls then Category.inProgress
  else Category.backlog

/-- The `for issue in issues` loop of `categorize_issues`, producing the
four buckets (ready_for_testing, in_progress, blocked, backlog) in
input order. -/
def categorizeLoop :
    List RawIssue → List CatIssue × List CatIssue × List CatIssue × List CatIssue
  | [] => ([], [], [], [])
  | issue :: rest =>
    let (r, p, b, k) := categorizeLoop rest
    let ls := labelNames issue
    if hasBlocked ls then (r, p, toCat issue :: b, k)
    else if hasReady ls then (toCat issue :: r, p, b, k)
    else if hasInProgress ls then (r, toCat issue :: p, b, k)
    else (r, p, b, toCat issue :: k)

/-- The snapshot dict returned by `categorize_issues` (the timestamp and
repo name are attached later by `save_snapshot` and never enter the
delta computation). -/
structure Snapshot where
  readyForTesting : List CatIssue
  inProgress : List CatIssue
  blocked : List CatIssue
  backlog : List CatIssue
  readyForTestingCount : Nat
  inProgressCount : Nat
  blockedCount : Nat
  backlogCount : Nat
  totalCount : Nat
deriving DecidableEq, Repr

/-- `categorize_issues`: categorize issues by label and build the
snapshot dict. -/
def categorize_issues (issues : List RawIssue) : Snapshot :=
  let (r, p, b, k) := categorizeLoop issues
  { readyForTesting := r
    inProgress := p
    blocked := b
    backlog := k
    readyForTestingCount := r.length
    inProgressCount := p.length
    blockedCount := b.length
    backlogCount := k.length
    totalCount := issues.length }

/-- One category entry of the dict returned by `calculate_delta`; `new`
and `moved` are `none` when the Python dict carries no such key. -/
structure BucketDelta where
  count : Nat
  delta : Int
  new : Option (List CatIssue)
  moved : Option (List CatIssue)
deriving DecidableEq, Repr

/-- The full delta dict returned by `calculate_delta`. -/
structure Delta where
  readyForTesting : BucketDelta
  inProgress : BucketDelta
  blocked : BucketDelta
  backlog : BucketDelta
deriving DecidableEq, Repr

/-- `calculate_delta(current, previous)`: what changed between
snapshots; `previous = none` is the first-run case. -/
def calculate_delta (current : Snapshot) (previous : Option Snapshot) : Delta :=
  match previous with
  | none =>
    { readyForTesting :=
        { count := current.readyForTestingCount
          delta := current.readyForTestingCount
          new := some current.readyForTesting
          moved := some [] }
      inProgress :=
        { count := current.inProgressCount
          delta := current.inProgressCount
          new := some current.inProgress
          moved := none }
      blocked :=
        { count := current.blockedCount
          delta := current.blockedCount
          new := some current.blocked
          moved := none }
      backlog :=
        { count := current.backlogCount
          delta := current.backlogCount
          new := none
          moved := none } }
  | some previous =>
    let prev_ready_ids := previous.readyForTesting.map CatIssue.number
    let new_ready :=
      current.readyForTesting.filter fun i => !(prev_ready_ids.contains i.number)
    let prev_in_progress_ids := previous.inProgress.map CatIssue.number
    let prev_blocked_ids := previous.blocked.map CatIssue.number
    let prev_backlog_ids := previous.backlog.map CatIssue.number
    let moved_to_ready :=
      current.readyForTesting.filter fun i =>
        prev_in_progress_ids.contains i.number ||
          prev_blocked_ids.contains i.number ||
          prev_backlog_ids.contains i.number
    let prev_all_ids :=
      (previous.readyForTesting ++ previous.inProgress ++
        previous.blocked ++ previous.backlog).map CatIssue.number
    let new_in_progress :=
      current.inProgress.filter fun i => !(prev_all_ids.contains i.number)
    let new_blocked :=
      current.blocked.filter fun i => !(prev_all_ids.contains i.number)
    { readyForTesting :=
        { count := current.readyForTestingCount
          delta := (current.readyForTestingCount : Int) - previous.readyForTestingCount
          new := some new_ready
          moved := some moved_to_ready }
      inProgress :=
        { count := current.inProgressCount
          delta := (current.inProgressCount : Int) - previous.inProgressCount
          new := some new_in_progress
          moved := none }
      blocked :=
        { count := current.blockedCount
          delta := (current.blockedCount : Int) - previous.blockedCount
          new := some new_blocked
          moved := none }
      backlog :=
        { count := current.backlogCount
          delta := (current.backlogCount : Int) - previous.backlogCount
          new := none
          moved := none } }

/-- `format_delta`: format a signed change with a "+" sign when
positive, the native sign when negative, or a literal "no change"
marker at zero. -/
def format_delta (delta_num : Int) : String :=
  if delta_num > 0 then "+" ++ toString delta_num
  else if delta_num < 0 then toString delta_num
  else "no change"

/-! ### Relations used to state number-only delta classification -/

/-- Two snapshots that agree on everything except issue titles and urls:
the same issue numbers per bucket, in the same order, and the same
stored counts. -/
def sameNumbers (s t : Snapshot) : Prop :=
  s.readyForTesting.map CatIssue.number = t.readyForTesting.map CatIssue.number ∧
  s.inProgress.map CatIssue.number = t.inProgress.map CatIssue.number ∧
  s.blocked.map CatIssue.number = t.blocked.map CatIssue.number ∧
  s.backlog.map CatIssue.number = t.backlog.map CatIssue.number ∧
  s.readyForTestingCount = t.readyForTestingCount ∧
  s.inProgressCount = t.inProgressCount ∧
  s.blockedCount = t.blockedCount ∧
  s.backlogCount = t.backlogCount ∧
  s.totalCount = t.totalCount

/-- `sameNumbers` lifted to the optional previous snapshot. -/
def sameNumbersOpt : Option Snapshot → Option Snapshot → Prop
  | none, none => True
  | some a, some b => sameNumbers a b
  | _, _ => False

/-- Issue numbers of an optional issue list. -/
def numsOpt (o : Option (List CatIssue)) : Option (List Nat) :=
  o.map fun l => l.map CatIssue.number

/-- Equal delta classification for one bucket: same count, same net
change, same issue numbers reported as new and as moved. -/
def sameBucketClass (a b : BucketDelta) : Prop :=
  a.count = b.count ∧ a.delta = b.delta ∧
  numsOpt a.new = numsOpt b.new ∧ numsOpt a.moved = numsOpt b.moved

/-- Equal delta classification for all four buckets. -/
def sameDeltaClass (a b : Delta) : Prop :=
  sameBucketClass a.readyForTesting b.readyForTesting ∧
  sameBucketClass a.inProgress b.inProgress ∧
  sameBucketClass a.blocked b.blocked ∧
  sameBucketClass a.backlog b.backlog

/-! ### The run pipeline of `main` over abstract external effects -/

/-- Result of a call into an external collaborator: a normal return
value, or a raised exception. -/
inductive Outcome (α : Type) where
  | ok : α → Outcome α
  | raise : Outcome α
deriving Repr

/-- Outcomes of the external effects during one run of `main`: the two
secret fetches, the GitHub issue fetch, the snapshot load, the Slack
post (payload: the ok field of the Slack API response when transport
succeeds), and the file write of `save_snapshot`. -/
structure World where
  githubSecret : Outcome Unit
  slackSecret : Outcome Unit
  issues : Outcome (List RawIssue)
  prevSnapshot : Outcome (Option Snapshot)
  slackPost : Outcome Bool
  saveWrite : Outcome Unit

/-- Observable result of a run of `main`: the snapshot written by
`save_snapshot`, if any, and the exit code. -/
structure RunResult where
  saved : Option Snapshot
  exitCode : Nat
deriving DecidableEq, Repr

/-- `send_slack_message`: a dry run prints the message and returns; a
live send raises only on a transport error, while the Slack API
response is inspected just for logging, so the function returns
normally whether the response reports ok true or ok false. -/
def send_slack_message (dryRun : Bool) (post : Outcome Bool) : Outcome Unit :=
  if dryRun then Outcome.ok ()
  else
    match post with
    | Outcome.raise => Outcome.raise
    | Outcome.ok _ => Outcome.ok ()

/-- The notification step fails: a live send whose transport raised or
whose Slack response reports ok false. -/
def notificationFails (dryRun : Bool) (post : Outcome Bool) : Bool :=
  !dryRun &&
    (match post with
     | Outcome.raise => true
     | Outcome.ok b => !b)

/-- `main`: the sequential try-block pipeline; any raised exception is
caught, logged, and turned into exit code 1, aborting before the save. -/
def main (w : World) (dryRun : Bool) : RunResult :=
  match w.githubSecret with
  | Outcome.raise => ⟨none, 1⟩
  | Outcome.ok _ =>
    match w.slackSecret with
    | Outcome.raise => ⟨none, 1⟩
    | Outcome.ok _ =>
      match w.issues with
      | Outcome.raise => ⟨none, 1⟩
      | Outcome.ok issues =>
        let current := categorize_issues issues
        match w.prevSnapshot with
        | Outcome.raise => ⟨none, 1⟩
        | Outcome.ok previous =>
          let _delta := calculate_delta current previous
          match send_slack_message dryRun w.slackPost with
          | Outcome.raise => ⟨none, 1⟩
          | Outcome.ok _ =>
            match w.saveWrite with
            | Outcome.raise => ⟨none, 1⟩
            | Outcome.ok _ => ⟨some current, 0⟩

/-! ### Concrete inputs used by examples, counterexamples and witnesses -/

/-- Issue number 5 of the moved-issue example. -/
def issue5 : CatIssue := ⟨5, "fix login flow", "u5"⟩

/-- Previous snapshot of the example: issue 5 sits in Blocked. -/
def prevB5 : Snapshot :=
  { readyForTesting := [], inProgress := [], blocked := [issue5], backlog := []
    readyForTestingCount := 0, inProgressCount := 0, blockedCount := 1
    backlogCount := 0, totalCount := 1 }

/-- Current snapshot of the example: issue 5 sits in ReadyForTesting. -/
def currR5 : Snapshot :=
  { readyForTesting := [issue5], inProgress := [], blocked := [], backlog := []
    readyForTestingCount := 1, inProgressCount := 0, blockedCount := 0
    backlogCount := 0, totalCount := 1 }

/-- An issue whose first label is literally "unblocked" and whose second
label is literally "blocked". -/
def unblockedIssue : RawIssue :=
  ⟨9, "database migration", "u9", ["unblocked", "blocked"]⟩

/-- An issue whose only label is literally "unblocked". -/
def blockedFreeIssue : RawIssue := ⟨3, "cleanup task", "u3", ["unblocked"]⟩

/-- Concrete issue list with pairwise-distinct numbers, one issue per
bucket kind. -/
def sampleIssues : List RawIssue :=
  [⟨1, "alpha", "u1", []⟩,
   ⟨2, "beta", "u2", ["status:blocked"]⟩,
   ⟨3, "gamma", "u3", ["ready-for-testing"]⟩,
   ⟨4, "delta", "u4", ["in progress", "priority:low"]⟩]

/-- Current snapshot of the non-interference witness. -/
def snapA : Snapshot :=
  { readyForTesting := [⟨1, "t1", "u1"⟩], inProgress := [⟨2, "t2", "u2"⟩]
    blocked := [], backlog := [⟨3, "t3", "u3"⟩]
    readyForTestingCount := 1, inProgressCount := 1, blockedCount := 0
    backlogCount := 1, totalCount := 3 }

/-- The same snapshot with every title and url changed. -/
def snapA2 : Snapshot :=
  { readyForTesting := [⟨1, "renamed 1", "v1"⟩], inProgress := [⟨2, "renamed 2", "v2"⟩]
    blocked := [], backlog := [⟨3, "renamed 3", "v3"⟩]
    readyForTestingCount := 1, inProgressCount := 1, blockedCount := 0
    backlogCount := 1, totalCount := 3 }

/-- Previous snapshot of the non-interference witness. -/
def snapP : Snapshot :=
  { readyForTesting := [], inProgress := [⟨1, "old 1", "w1"⟩]
    blocked := [⟨4, "old 4", "w4"⟩], backlog := []
    readyForTestingCount := 0, inProgressCount := 1, blockedCount := 1
    backlogCount := 0, totalCount := 2 }

/-- The same previous snapshot with every title and url changed. -/
def snapP2 : Snapshot :=
  { readyForTesting := [], inProgress := [⟨1, "edited 1", "x1"⟩]
    blocked := [⟨4, "edited 4", "x4"⟩], backlog := []
    readyForTestingCount := 0, inProgressCount := 1, blockedCount := 1
    backlogCount := 0, totalCount := 2 }

/-- The single open issue of the failing run. -/
def c8Issues : List RawIssue := [⟨11, "fix deploy", "u11", ["blocked"]⟩]

/-- A live run in which every step succeeds except that the Slack API
rejects the message: the transport returns a response reporting ok
false. -/
def rejectedPostWorld : World :=
  { githubSecret := Outcome.ok ()
    slackSecret := Outcome.ok ()
    issues := Outcome.ok c8Issues
    prevSnapshot := Outcome.ok none
    slackPost := Outcome.ok false
    saveWrite := Outcome.ok () }

/-! ### Characterization lemmas for the categorizer -/

lemma categorizeLoop_eq (issues : List RawIssue) :
    categorizeLoop issues =
      ((issues.filter fun i => categoryOf i == Category.readyForTesting).map toCat,
       (issues.filter fun i => categoryOf i == Category.inProgress).map toCat,
       (issues.filter fun i => categoryOf i == Category.blocked).map toCat,
       (issues.filter fun i => categoryOf i == Category.backlog).map toCat) := by
  induction issues with
  | nil => rfl
  | cons issue rest ih =>
    by_cases hb : hasBlocked (labelNames issue)
    · simp [categorizeLoop, ih, categoryOf, hb, List.filter_cons]
    · by_cases hr : hasReady (labelNames issue)
      · simp [categorizeLoop, ih, categoryOf, hb, hr, List.filter_cons]
      · by_cases hp : hasInProgress (labelNames issue)
        · simp [categorizeLoop, ih, categoryOf, hb, hr, hp, List.filter_cons]
        · simp [categorizeLoop, ih, categoryOf, hb, hr, hp, List.filter_cons]

lemma categorize_buckets (issues : List RawIssue) :
    (categorize_issues issues).readyForTesting =
        (issues.filter fun i => categoryOf i == Category.readyForTesting).map toCat ∧
    (categorize_issues issues).inProgress =
        (issues.filter fun i => categoryOf i == Category.inProgress).map toCat ∧
    (categorize_issues issues).blocked =
        (issues.filter fun i => categoryOf i == Category.blocked).map toCat ∧
    (categorize_issues issues).backlog =
        (issues.filter fun i => categoryOf i == Category.backlog).map toCat := by
  simp [categorize_issues, categorizeLoop_eq]

lemma categorize_counts_eq (issues : List RawIssue) :
    (categorize_issues issues).readyForTestingCount =
        (categorize_issues issues).readyForTesting.length ∧
    (categorize_issues issues).inProgressCount =
        (categorize_issues issues).inProgress.length ∧
    (categorize_issues issues).blockedCount =
        (categorize_issues issues).blocked.length ∧
    (categorize_issues issues).backlogCount =
        (categorize_issues issues).backlog.length := by
  simp [categorize_issues]

lemma categoryOf_eq_blocked (i : RawIssue) :
    (categoryOf i == Category.blocked) = hasBlocked (labelNames i) := by
  unfold categoryOf
  by_cases hb : hasBlocked (labelNames i) <;> by_cases hr : hasReady (labelNames i) <;>
    by_cases hp : hasInProgress (labelNames i) <;> simp [hb, hr, hp]

lemma categoryOf_eq_ready (i : RawIssue) :
    (categoryOf i == Category.readyForTesting) =
      (!hasBlocked (labelNames i) && hasReady (labelNames i)) := by
  unfold categoryOf
  by_cases hb : hasBlocked (labelNames i) <;> by_cases hr : hasReady (labelNames i) <;>
    by_cases hp : hasInProgress (labelNames i) <;> simp [hb, hr, hp]

lemma categoryOf_eq_inProgress (i : RawIssue) :
    (categoryOf i == Category.inProgress) =
      (!hasBlocked (labelNames i) && !hasReady (labelNames i) &&
        hasInProgress (labelNames i)) := by
  unfold categoryOf
  by_cases hb : hasBlocked (labelNames i) <;> by_cases hr : hasReady (labelNames i) <;>
    by_cases hp : hasInProgress (labelNames i) <;> simp [hb, hr, hp]

lemma categoryOf_eq_backlog (i : RawIssue) :
    (categoryOf i == Category.backlog) =
      (!hasBlocked (labelNames i) && !hasReady (labelNames i) &&
        !hasInProgress (labelNames i)) := by
  unfold categoryOf
  by_cases hb : hasBlocked (labelNames i) <;> by_cases hr : hasReady (labelNames i) <;>
    by_cases hp : hasInProgress (labelNames i) <;> simp [hb, hr, hp]

lemma bucket_numbers (issues : List RawIssue) (p : RawIssue → Bool) :
    ((issues.filter p).map toCat).map CatIssue.number =
      (issues.filter p).map RawIssue.number := by
  simp [List.map_map]
  intro a _ _
  rfl

lemma bucket_disjoint (issues : List RawIssue)
    (h : (issues.map RawIssue.number).Nodup) (c₁ c₂ : Category) (hcc : c₁ ≠ c₂) :
    ((issues.filter fun i => categoryOf i == c₁).map RawIssue.number).Disjoint
      ((issues.filter fun i => categoryOf i == c₂).map RawIssue.number) := by
  intro n hn hm
  simp only [List.mem_map, List.mem_filter, beq_iff_eq] at hn hm
  obtain ⟨i, ⟨hi, hci⟩, hni⟩ := hn
  obtain ⟨j, ⟨hj, hcj⟩, hnj⟩ := hm
  have hij : i = j :=
    List.inj_on_of_nodup_map h hi hj (by rw [hni, hnj])
  exact hcc (hci ▸ hij ▸ hcj)

lemma union_numbers (issues : List RawIssue) (n : Nat) :
    n ∈ issues.map RawIssue.number ↔
      (n ∈ (issues.filter fun i => categoryOf i == Category.readyForTesting).map RawIssue.number ∨
       n ∈ (issues.filter fun i => categoryOf i == Category.inProgress).map RawIssue.number ∨
       n ∈ (issues.filter fun i => categoryOf i == Category.blocked).map RawIssue.number ∨
       n ∈ (issues.filter fun i => categoryOf i == Category.backlog).map RawIssue.number) := by
  simp only [List.mem_map, List.mem_filter, beq_iff_eq]
  constructor
  · rintro ⟨i, hi, hni⟩
    cases hc : categoryOf i
    · exact Or.inl ⟨i, ⟨hi, hc⟩, hni⟩
    · exact Or.inr (Or.inl ⟨i, ⟨hi, hc⟩, hni⟩)
    · exact Or.inr (Or.inr (Or.inl ⟨i, ⟨hi, hc⟩, hni⟩))
    · exact Or.inr (Or.inr (Or.inr ⟨i, ⟨hi, hc⟩, hni⟩))
  · rintro (⟨i, ⟨hi, _⟩, hni⟩ | ⟨i, ⟨hi, _⟩, hni⟩ | ⟨i, ⟨hi, _⟩, hni⟩ | ⟨i, ⟨hi, _⟩, hni⟩) <;>
      exact ⟨i, hi, hni⟩

lemma length_four_filters (issues : List RawIssue) :
    (issues.filter fun i => categoryOf i == Category.readyForTesting).length +
      (issues.filter fun i => categoryOf i == Category.inProgress).length +
      (issues.filter fun i => categoryOf i == Category.blocked).length +
      (issues.filter fun i => categoryOf i == Category.backlog).length =
      issues.length := by
  induction issues with
  | nil => rfl
  | cons i rest ih =>
    cases hc : categoryOf i <;> simp [List.filter_cons, hc] <;> omega

lemma map_filter_number (p : Nat → Bool) :
    ∀ l₁ l₂ : List CatIssue,
      l₁.map CatIssue.number = l₂.map CatIssue.number →
      ((l₁.filter fun i => p i.number).map CatIssue.number =
        (l₂.filter fun i => p i.number).map CatIssue.number)
  | [], [], _ => rfl
  | [], _ :: _, h => by simp at h
  | _ :: _, [], h => by simp at h
  | a :: l₁, b :: l₂, h => by
    simp only [List.map_cons, List.cons.injEq] at h
    obtain ⟨hn, ht⟩ := h
    simp only [List.filter_cons, hn]
    cases hp : p b.number <;>
      simp [map_filter_number p l₁ l₂ ht, hn]

/-! ### Claim theorems -/

/-- C1: For every input issue list, the categorizer assigns each issue
to exactly one bucket by evaluating the label predicates in strict
priority order Blocked, then ReadyForTesting, then InProgress, taking
the first matching bucket and falling through to Backlog: the Blocked
bucket holds exactly the issues matching the Blocked predicate,
ReadyForTesting exactly those matching Ready but not Blocked,
InProgress exactly those matching InProgress but neither Blocked nor
Ready, and Backlog exactly the issues matching no predicate. An issue
with zero labels always lands in Backlog, and an issue with labels
["status:in-progress", "priority:high"] lands in InProgress. -/
theorem categorize_assigns_by_priority (issues : List RawIssue) :
    ((categorize_issues issues).blocked =
       (issues.filter fun i => hasBlocked (labelNames i)).map toCat) ∧
    ((categorize_issues issues).readyForTesting =
       (issues.filter fun i =>
         !hasBlocked (labelNames i) && hasReady (labelNames i)).map toCat) ∧
    ((categorize_issues issues).inProgress =
       (issues.filter fun i =>
         !hasBlocked (labelNames i) && !hasReady (labelNames i) &&
           hasInProgress (labelNames i)).map toCat) ∧
    ((categorize_issues issues).backlog =
       (issues.filter fun i =>
         !hasBlocked (labelNames i) && !hasReady (labelNames i) &&
           !hasInProgress (labelNames i)).map toCat) ∧
    (∀ n t u, categoryOf ⟨n, t, u, []⟩ = Category.backlog) ∧
    (∀ n t u, categoryOf ⟨n, t, u, ["status:in-progress", "priority:high"]⟩ =
       Category.inProgress) := by
  obtain ⟨h1, h2, h3, h4⟩ := categorize_buckets issues
  refine ⟨?_, ?_, ?_, ?_, fun n t u => rfl, fun n t u => rfl⟩
  · rw [h3]; simp only [categoryOf_eq_blocked]
  · rw [h1]; simp only [categoryOf_eq_ready]
  · rw [h2]; simp only [categoryOf_eq_inProgress]
  · rw [h4]; simp only [categoryOf_eq_backlog]

/-- C2: For every input issue list with pairwise-distinct issue numbers,
the four category sequences of the snapshot are pairwise disjoint as
sets of issue numbers, their union equals the set of input issue
numbers, and each of the four count fields equals the length of its
sequence. -/
theorem categorize_partitions_issues (issues : List RawIssue)
    (h : (issues.map RawIssue.number).Nodup) :
    ((categorize_issues issues).readyForTesting.map CatIssue.number).Disjoint
        ((categorize_issues issues).inProgress.map CatIssue.number) ∧
    ((categorize_issues issues).readyForTesting.map CatIssue.number).Disjoint
        ((categorize_issues issues).blocked.map CatIssue.number) ∧
    ((categorize_issues issues).readyForTesting.map CatIssue.number).Disjoint
        ((categorize_issues issues).backlog.map CatIssue.number) ∧
    ((categorize_issues issues).inProgress.map CatIssue.number).Disjoint
        ((categorize_issues issues).blocked.map CatIssue.number) ∧
    ((categorize_issues issues).inProgress.map CatIssue.number).Disjoint
        ((categorize_issues issues).backlog.map CatIssue.number) ∧
    ((categorize_issues issues).blocked.map CatIssue.number).Disjoint
        ((categorize_issues issues).backlog.map CatIssue.number) ∧
    (∀ n, n ∈ issues.map RawIssue.number ↔
      (n ∈ (categorize_issues issues).readyForTesting.map CatIssue.number ∨
       n ∈ (categorize_issues issues).inProgress.map CatIssue.number ∨
       n ∈ (categorize_issues issues).blocked.map CatIssue.number ∨
       n ∈ (categorize_issues issues).backlog.map CatIssue.number)) ∧
    (categorize_issues issues).readyForTestingCount =
        (categorize_issues issues).readyForTesting.length ∧
    (categorize_issues issues).inProgressCount =
        (categorize_issues issues).inProgress.length ∧
    (categorize_issues issues).blockedCount =
        (categorize_issues issues).blocked.length ∧
    (categorize_issues issues).backlogCount =
        (categorize_issues issues).backlog.length := by
  obtain ⟨h1, h2, h3, h4⟩ := categorize_buckets issues
  obtain ⟨c1, c2, c3, c4⟩ := categorize_counts_eq issues
  rw [h1, h2, h3, h4, bucket_numbers, bucket_numbers, bucket_numbers, bucket_numbers]
  refine ⟨bucket_disjoint issues h _ _ (by simp),
          bucket_disjoint issues h _ _ (by simp),
          bucket_disjoint issues h _ _ (by simp),
          bucket_disjoint issues h _ _ (by simp),
          bucket_disjoint issues h _ _ (by simp),
          bucket_disjoint issues h _ _ (by simp),
          fun n => union_numbers issues n,
          by rw [← h1]; exact c1, by rw [← h2]; exact c2,
          by rw [← h3]; exact c3, by rw [← h4]; exact c4⟩

/-- C2 witness: the partition theorem applied to a concrete issue list
with distinct numbers. -/
theorem categorize_partitions_issues_witness :
    (sampleIssues.map RawIssue.number).Nodup ∧
    (((categorize_issues sampleIssues).readyForTesting.map CatIssue.number).Disjoint
        ((categorize_issues sampleIssues).inProgress.map CatIssue.number) ∧
    ((categorize_issues sampleIssues).readyForTesting.map CatIssue.number).Disjoint
        ((categorize_issues sampleIssues).blocked.map CatIssue.number) ∧
    ((categorize_issues sampleIssues).readyForTesting.map CatIssue.number).Disjoint
        ((categorize_issues sampleIssues).backlog.map CatIssue.number) ∧
    ((categorize_issues sampleIssues).inProgress.map CatIssue.number).Disjoint
        ((categorize_issues sampleIssues).blocked.map CatIssue.number) ∧
    ((categorize_issues sampleIssues).inProgress.map CatIssue.number).Disjoint
        ((categorize_issues sampleIssues).backlog.map CatIssue.number) ∧
    ((categorize_issues sampleIssues).blocked.map CatIssue.number).Disjoint
        ((categorize_issues sampleIssues).backlog.map CatIssue.number) ∧
    (∀ n, n ∈ sampleIssues.map RawIssue.number ↔
      (n ∈ (categorize_issues sampleIssues).readyForTesting.map CatIssue.number ∨
       n ∈ (categorize_issues sampleIssues).inProgress.map CatIssue.number ∨
       n ∈ (categorize_issues sampleIssues).blocked.map CatIssue.number ∨
       n ∈ (categorize_issues sampleIssues).backlog.map CatIssue.number)) ∧
    (categorize_issues sampleIssues).readyForTestingCount =
        (categorize_issues sampleIssues).readyForTesting.length ∧
    (categorize_issues sampleIssues).inProgressCount =
        (categorize_issues sampleIssues).inProgress.length ∧
    (categorize_issues sampleIssues).blockedCount =
        (categorize_issues sampleIssues).blocked.length ∧
    (categorize_issues sampleIssues).backlogCount =
        (categorize_issues sampleIssues).backlog.length) :=
  ⟨by decide, categorize_partitions_issues sampleIssues (by decide)⟩

/-- C3: When the previous snapshot is absent, every category reports
netChange equal to its current count, newIssues for ReadyForTesting,
InProgress and Blocked equal the full current bucket, movedIssues for
ReadyForTesting is empty, and Backlog carries only count and netChange,
with no issue-level lists. -/
theorem delta_first_run (current : Snapshot) :
    (calculate_delta current none).readyForTesting.delta =
        (current.readyForTestingCount : Int) ∧
    (calculate_delta current none).inProgress.delta = (current.inProgressCount : Int) ∧
    (calculate_delta current none).blocked.delta = (current.blockedCount : Int) ∧
    (calculate_delta current none).backlog.delta = (current.backlogCount : Int) ∧
    (calculate_delta current none).readyForTesting.new = some current.readyForTesting ∧
    (calculate_delta current none).inProgress.new = some current.inProgress ∧
    (calculate_delta current none).blocked.new = some current.blocked ∧
    (calculate_delta current none).readyForTesting.moved = some [] ∧
    (calculate_delta current none).backlog.new = none ∧
    (calculate_delta current none).backlog.moved = none ∧
    (calculate_delta current none).readyForTesting.count =
        current.readyForTestingCount ∧
    (calculate_delta current none).inProgress.count = current.inProgressCount ∧
    (calculate_delta current none).blocked.count = current.blockedCount ∧
    (calculate_delta current none).backlog.count = current.backlogCount :=
  ⟨rfl, rfl, rfl, rfl, rfl, rfl, rfl, rfl, rfl, rfl, rfl, rfl, rfl, rfl⟩

/-- C4 counterexample: in the spec example (previous snapshot has issue
5 in Blocked, current snapshot has issue 5 in ReadyForTesting, nothing
else changes), the delta reports newIssues = [issue 5] for
ReadyForTesting, not the empty list the claim states, so newIssues and
movedIssues both contain issue 5 and are not disjoint. -/
theorem delta_ready_new_not_empty :
    (calculate_delta currR5 (some prevB5)).readyForTesting.moved = some [issue5] ∧
    (calculate_delta currR5 (some prevB5)).readyForTesting.new = some [issue5] ∧
    (calculate_delta currR5 (some prevB5)).readyForTesting.new ≠ some [] ∧
    (calculate_delta currR5 (some prevB5)).blocked.delta = -1 := by
  refine ⟨rfl, rfl, by decide, rfl⟩

/-- C4 (amended): for the example pair, ReadyForTesting movedIssues =
[issue 5] and Blocked netChange = -1 as claimed, but ReadyForTesting
newIssues equals [issue 5], because newIssues is computed against
previous ReadyForTesting membership only; in general newIssues collects
the current ReadyForTesting issues absent from the previous
ReadyForTesting bucket and movedIssues those present in one of the
other three previous buckets — the two lists are computed independently
and need not be disjoint. -/
theorem delta_ready_moved_example :
    ((calculate_delta currR5 (some prevB5)).readyForTesting.moved = some [issue5] ∧
     (calculate_delta currR5 (some prevB5)).readyForTesting.new = some [issue5] ∧
     (calculate_delta currR5 (some prevB5)).blocked.delta = -1) ∧
    (∀ current previous : Snapshot, ∃ l m,
      (calculate_delta current (some previous)).readyForTesting.new = some l ∧
      (calculate_delta current (some previous)).readyForTesting.moved = some m ∧
      (∀ i, i ∈ l ↔ i ∈ current.readyForTesting ∧
        i.number ∉ previous.readyForTesting.map CatIssue.number) ∧
      (∀ i, i ∈ m ↔ i ∈ current.readyForTesting ∧
        (i.number ∈ previous.inProgress.map CatIssue.number ∨
         i.number ∈ previous.blocked.map CatIssue.number ∨
         i.number ∈ previous.backlog.map CatIssue.number))) := by
  refine ⟨⟨rfl, rfl, rfl⟩, fun current previous => ?_⟩
  refine ⟨_, _, rfl, rfl, ?_, ?_⟩ <;> intro i <;> simp [List.mem_filter, or_assoc]

/-- C5 counterexample: the issue with labels ["unblocked", "blocked"]
has a label containing the substring "unblocked", yet the categorizer
places it into Blocked, because its second label contains "blocked"
without containing "unblocked". -/
theorem unblocked_claim_refuted :
    ((labelNames unblockedIssue).any fun l => strContains l "unblocked") = true ∧
    categoryOf unblockedIssue = Category.blocked ∧
    (categorize_issues [unblockedIssue]).blocked = [toCat unblockedIssue] := by
  refine ⟨by decide, by decide, by decide⟩

/-- C5 (amended): the "unblocked" exclusion is per label: an issue is
never placed into Blocked when every one of its labels that contains
the substring "blocked" also contains "unblocked" — in particular a
label containing "unblocked" never by itself sends an issue to
Blocked. -/
theorem unblocked_label_never_blocks (i : RawIssue)
    (h : ∀ l ∈ labelNames i,
      strContains l "blocked" = true → strContains l "unblocked" = true) :
    categoryOf i ≠ Category.blocked ∧ (categorize_issues [i]).blocked = [] := by
  have hb : hasBlocked (labelNames i) = false := by
    simp only [hasBlocked, List.any_eq_false, Bool.and_eq_true, Bool.not_eq_true,
      not_and]
    intro l hl hbl
    simp [h l hl hbl]
  constructor
  · simp only [categoryOf, hb]
    by_cases hr : hasReady (labelNames i) <;>
      by_cases hp : hasInProgress (labelNames i) <;> simp [hr, hp]
  · have h3 := (categorize_buckets [i]).2.2.1
    rw [h3]
    simp [List.filter_cons, categoryOf_eq_blocked, hb]

/-- C5 witness: the amended theorem applied to an issue whose only label
is literally "unblocked". -/
theorem unblocked_label_never_blocks_witness :
    (∀ l ∈ labelNames blockedFreeIssue,
      strContains l "blocked" = true → strContains l "unblocked" = true) ∧
    (categoryOf blockedFreeIssue ≠ Category.blocked ∧
      (categorize_issues [blockedFreeIssue]).blocked = []) :=
  ⟨by decide, unblocked_label_never_blocks blockedFreeIssue (by decide)⟩

/-- C6: With a previous snapshot present, newIssues for InProgress
(respectively Blocked) is exactly the sublist, in current bucket order,
of the current InProgress (respectively Blocked) issues whose number
occurs in none of the four previous category sequences combined. -/
theorem delta_new_in_progress_blocked (current previous : Snapshot) :
    ∃ lp lb,
      (calculate_delta current (some previous)).inProgress.new = some lp ∧
      (calculate_delta current (some previous)).blocked.new = some lb ∧
      List.Sublist lp current.inProgress ∧
      List.Sublist lb current.blocked ∧
      (∀ i, i ∈ lp ↔ i ∈ current.inProgress ∧
        i.number ∉ (previous.readyForTesting ++ previous.inProgress ++
          previous.blocked ++ previous.backlog).map CatIssue.number) ∧
      (∀ i, i ∈ lb ↔ i ∈ current.blocked ∧
        i.number ∉ (previous.readyForTesting ++ previous.inProgress ++
          previous.blocked ++ previous.backlog).map CatIssue.number) := by
  refine ⟨_, _, rfl, rfl, List.filter_sublist _, List.filter_sublist _, ?_, ?_⟩ <;>
    intro i <;> simp [List.mem_filter]

/-- C7: Delta classification depends only on issue numbers: two pairs of
current and previous snapshots that agree on all issue numbers per
bucket and on the stored counts, differing arbitrarily in issue titles
and urls, produce deltas with the same counts, the same netChange, and
the same issue numbers in every newIssues and movedIssues list. -/
theorem delta_ignores_titles_urls (c₁ c₂ : Snapshot) (p₁ p₂ : Option Snapshot)
    (hc : sameNumbers c₁ c₂) (hp : sameNumbersOpt p₁ p₂) :
    sameDeltaClass (calculate_delta c₁ p₁) (calculate_delta c₂ p₂) := by
  obtain ⟨hr, hi, hb, hk, hcr, hci, hcb, hck, hct⟩ := hc
  match p₁, p₂, hp with
  | none, none, _ =>
    exact ⟨⟨hcr, by show ((c₁.readyForTestingCount : Int)) = ((c₂.readyForTestingCount : Int)); rw [hcr],
             congrArg some hr, rfl⟩,
           ⟨hci, by show ((c₁.inProgressCount : Int)) = ((c₂.inProgressCount : Int)); rw [hci],
             congrArg some hi, rfl⟩,
           ⟨hcb, by show ((c₁.blockedCount : Int)) = ((c₂.blockedCount : Int)); rw [hcb],
             congrArg some hb, rfl⟩,
           ⟨hck, by show ((c₁.backlogCount : Int)) = ((c₂.backlogCount : Int)); rw [hck], rfl, rfl⟩⟩
  | some q₁, some q₂, hq =>
    obtain ⟨gr, gi, gb, gk, gcr, gci, gcb, gck, gct⟩ := hq
    have gall : (q₁.readyForTesting ++ q₁.inProgress ++ q₁.blocked ++
        q₁.backlog).map CatIssue.number =
        (q₂.readyForTesting ++ q₂.inProgress ++ q₂.blocked ++
          q₂.backlog).map CatIssue.number := by
      simp [List.map_append, gr, gi, gb, gk]
    refine ⟨⟨hcr, by
              show (c₁.readyForTestingCount : Int) - (q₁.readyForTestingCount : Int) =
                (c₂.readyForTestingCount : Int) - (q₂.readyForTestingCount : Int)
              rw [hcr, gcr], ?_, ?_⟩,
            ⟨hci, by
              show (c₁.inProgressCount : Int) - (q₁.inProgressCount : Int) =
                (c₂.inProgressCount : Int) - (q₂.inProgressCount : Int)
              rw [hci, gci], ?_, rfl⟩,
            ⟨hcb, by
              show (c₁.blockedCount : Int) - (q₁.blockedCount : Int) =
                (c₂.blockedCount : Int) - (q₂.blockedCount : Int)
              rw [hcb, gcb], ?_, rfl⟩,
            ⟨hck, by
              show (c₁.backlogCount : Int) - (q₁.backlogCount : Int) =
                (c₂.backlogCount : Int) - (q₂.backlogCount : Int)
              rw [hck, gck], rfl, rfl⟩⟩
    · show numsOpt (some (c₁.readyForTesting.filter fun i =>
          !((q₁.readyForTesting.map CatIssue.number).contains i.number))) =
        numsOpt (some (c₂.readyForTesting.filter fun i =>
          !((q₂.readyForTesting.map CatIssue.number).contains i.number)))
      rw [gr]
      exact congrArg some (map_filter_number
        (fun n => !((q₂.readyForTesting.map CatIssue.number).contains n)) _ _ hr)
    · show numsOpt (some (c₁.readyForTesting.filter fun i =>
          (q₁.inProgress.map CatIssue.number).contains i.number ||
            (q₁.blocked.map CatIssue.number).contains i.number ||
            (q₁.backlog.map CatIssue.number).contains i.number)) =
        numsOpt (some (c₂.readyForTesting.filter fun i =>
          (q₂.inProgress.map CatIssue.number).contains i.number ||
            (q₂.blocked.map CatIssue.number).contains i.number ||
            (q₂.backlog.map CatIssue.number).contains i.number))
      rw [gi, gb, gk]
      exact congrArg some (map_filter_number
        (fun n => (q₂.inProgress.map CatIssue.number).contains n ||
          (q₂.blocked.map CatIssue.number).contains n ||
          (q₂.backlog.map CatIssue.number).contains n) _ _ hr)
    · show numsOpt (some (c₁.inProgress.filter fun i =>
          !(((q₁.readyForTesting ++ q₁.inProgress ++ q₁.blocked ++
            q₁.backlog).map CatIssue.number).contains i.number))) =
        numsOpt (some (c₂.inProgress.filter fun i =>
          !(((q₂.readyForTesting ++ q₂.inProgress ++ q₂.blocked ++
            q₂.backlog).map CatIssue.number).contains i.number)))
      rw [gall]
      exact congrArg some (map_filter_number
        (fun n => !(((q₂.readyForTesting ++ q₂.inProgress ++ q₂.blocked ++
          q₂.backlog).map CatIssue.number).contains n)) _ _ hi)
    · show numsOpt (some (c₁.blocked.filter fun i =>
          !(((q₁.readyForTesting ++ q₁.inProgress ++ q₁.blocked ++
            q₁.backlog).map CatIssue.number).contains i.number))) =
        numsOpt (some (c₂.blocked.filter fun i =>
          !(((q₂.readyForTesting ++ q₂.inProgress ++ q₂.blocked ++
            q₂.backlog).map CatIssue.number).contains i.number)))
      rw [gall]
      exact congrArg some (map_filter_number
        (fun n => !(((q₂.readyForTesting ++ q₂.inProgress ++ q₂.blocked ++
          q₂.backlog).map CatIssue.number).contains n)) _ _ hb)

/-- C7 witness: the non-interference theorem applied to two concrete
snapshot pairs that differ only in titles and urls. -/
theorem delta_ignores_titles_urls_witness :
    sameNumbers snapA snapA2 ∧ sameNumbersOpt (some snapP) (some snapP2) ∧
    sameDeltaClass (calculate_delta snapA (some snapP))
      (calculate_delta snapA2 (some snapP2)) :=
  ⟨⟨rfl, rfl, rfl, rfl, rfl, rfl, rfl, rfl, rfl⟩,
   ⟨rfl, rfl, rfl, rfl, rfl, rfl, rfl, rfl, rfl⟩,
   delta_ignores_titles_urls snapA snapA2 (some snapP) (some snapP2)
     ⟨rfl, rfl, rfl, rfl, rfl, rfl, rfl, rfl, rfl⟩
     ⟨rfl, rfl, rfl, rfl, rfl, rfl, rfl, rfl, rfl⟩⟩

/-- C8 (code bug): a live run in which the Slack API rejects the message
(the response reports ok false) is a failed notification, yet
`send_slack_message` only logs the error and returns normally, so
`main` still saves the snapshot and exits 0: the persisted snapshot is
overwritten despite the failed notification step. Only a raised
transport exception aborts the run before the save. -/
theorem notification_failure_still_saves :
    notificationFails false (Outcome.ok false) = true ∧
    (main rejectedPostWorld false).saved = some (categorize_issues c8Issues) ∧
    (main rejectedPostWorld false).exitCode = 0 :=
  ⟨rfl, rfl, rfl⟩

/-- C9: format_delta renders a positive integer as "+N", a negative one
with its native sign, and zero as the literal string "no change", never
"+0"; in particular 5, -2 and 0 render as "+5", "-2" and "no change". -/
theorem format_delta_spec :
    format_delta 5 = "+5" ∧ format_delta (-2) = "-2" ∧
    format_delta 0 = "no change" ∧ format_delta 0 ≠ "+0" ∧
    ∀ n : Int, format_delta n =
      if n > 0 then "+" ++ toString n
      else if n < 0 then toString n
      else "no change" :=
  ⟨by decide, by decide, rfl, by decide, fun n => rfl⟩

/-- C10: The snapshot built by the categorizer carries a totalCount
field equal to the number of input issues, which in turn equals the sum
of the four per-category counts. -/
theorem categorize_totalCount (issues : List RawIssue) :
    (categorize_issues issues).totalCount = issues.length ∧
    (categorize_issues issues).totalCount =
      (categorize_issues issues).readyForTestingCount +
        (categorize_issues issues).inProgressCount +
        (categorize_issues issues).blockedCount +
        (categorize_issues issues).backlogCount := by
  obtain ⟨h1, h2, h3, h4⟩ := categorize_buckets issues
  obtain ⟨c1, c2, c3, c4⟩ := categorize_counts_eq issues
  have ht : (categorize_issues issues).totalCount = issues.length := by
    simp [categorize_issues]
  refine ⟨ht, ?_⟩
  rw [ht, c1, c2, c3, c4, h1, h2, h3, h4]
  simp only [List.length_map]
  have := length_four_filters issues
  omega

end IssueSummary
